import Mathlib

/-!
Shallow embedding of the Cloud-GIS-BE satellite-imagery pipeline
(`src/lambda-sentinel-data/sentinel_data.py` and `src/api/sentinel_data.py`),
together with theorems settling the specification claims about it.

Modelling conventions:
* Python floats for coordinates and cloud cover are modelled as exact
  rationals (`ℚ`); the decimal literals of the source are exact in `ℚ`.
* Network and store interactions are modelled by an oracle environment
  (`Env`) plus an explicit effect trace (`List Effect`); concurrent
  fan-outs (thread pools) are linearised in submission order, which is
  also the order in which the source collects `future.result()`.
* A Python exception escaping the handler is modelled as
  `HandlerResult.exception`; a returned response dict as
  `HandlerResult.response`.
* Non-finite float results (NaN/inf from division by zero) are modelled
  as `none : Option ℚ`.
-/

namespace CloudGIS

/-- A Sentinel-2 scene descriptor as consumed from the catalog response:
`id`, the cloud-cover percentage, and the three band asset hrefs. -/
structure Scene where
  id : String
  cloudCover : ℚ
  nirHref : String
  swirHref : String
  redHref : String
deriving DecidableEq, Repr

/-- Stable insertion by the key `eo:cloud_cover` (an earlier list element
is kept before any later element with an equal key, matching the stable
Python `sorted`). -/
def insertByCloud (s : Scene) : List Scene → List Scene
  | [] => [s]
  | t :: ts => if s.cloudCover ≤ t.cloudCover then s :: t :: ts else t :: insertByCloud s ts

/-- Source `sorted(images, key=lambda x: x["properties"]["eo:cloud_cover"])`:
a stable sort by cloud cover (the Python builtin `sorted` is specified stable;
any stable sort is extensionally the same list). -/
def sortByCloud (l : List Scene) : List Scene := l.foldr insertByCloud []

/-- Source `sorted(images, key=...)[0] if images else None` — the scene the
catalog client hands back from a successful (HTTP 200) response body. -/
def selectScene (l : List Scene) : Option Scene := (sortByCloud l).head?

/-- Specification-side selection rule, written from the words of the spec:
"pick the one with the minimum cloud-cover percentage; ties broken by
the original catalog listing order (stable sort, first wins)"; none
for an empty candidate list. -/
def firstMinScene : List Scene → Option Scene
  | [] => none
  | s :: rest =>
    match firstMinScene rest with
    | none => some s
    | some m => if m.cloudCover < s.cloudCover then some m else some s

theorem insertByCloud_head (s : Scene) (l : List Scene) :
    (insertByCloud s l).head? =
      some (match l.head? with
            | none => s
            | some t => if s.cloudCover ≤ t.cloudCover then s else t) := by
  cases l with
  | nil => rfl
  | cons t ts =>
    by_cases h : s.cloudCover ≤ t.cloudCover <;> simp [insertByCloud, h]

theorem selectScene_eq_firstMinScene (l : List Scene) :
    selectScene l = firstMinScene l := by
  induction l with
  | nil => rfl
  | cons x xs ih =>
    show (insertByCloud x (sortByCloud xs)).head? = _
    rw [insertByCloud_head]
    have hx : (sortByCloud xs).head? = firstMinScene xs := ih
    rw [hx]
    cases hfm : firstMinScene xs with
    | none => simp [firstMinScene, hfm]
    | some m =>
      by_cases h : x.cloudCover ≤ m.cloudCover
      · have h2 : ¬ m.cloudCover < x.cloudCover := not_lt.mpr h
        simp [firstMinScene, hfm, h, h2]
      · have h2 : m.cloudCover < x.cloudCover := not_le.mp h
        simp [firstMinScene, hfm, h, h2]

theorem firstMinScene_eq_none (l : List Scene) :
    firstMinScene l = none ↔ l = [] := by
  cases l with
  | nil => simp [firstMinScene]
  | cons x xs =>
    simp only [firstMinScene]
    cases firstMinScene xs with
    | none => simp
    | some m =>
      by_cases h : m.cloudCover < x.cloudCover <;> simp [h]

theorem firstMinScene_spec (l : List Scene) (s : Scene)
    (hs : firstMinScene l = some s) :
    ∃ i, ∃ h : i < l.length,
      l.get ⟨i, h⟩ = s ∧
      (∀ t ∈ l, s.cloudCover ≤ t.cloudCover) ∧
      (∀ t ∈ l.take i, s.cloudCover < t.cloudCover) := by
  induction l generalizing s with
  | nil => simp [firstMinScene] at hs
  | cons x xs ih =>
    simp only [firstMinScene] at hs
    cases hfm : firstMinScene xs with
    | none =>
      rw [hfm] at hs
      have hxs : xs = [] := (firstMinScene_eq_none xs).mp hfm
      subst hxs
      simp at hs
      subst hs
      exact ⟨0, by simp, by simp⟩
    | some m =>
      rw [hfm] at hs
      have hs2 : (if m.cloudCover < x.cloudCover then some m else some x) = some s := hs
      by_cases hlt : m.cloudCover < x.cloudCover
      · rw [if_pos hlt] at hs2
        have hm : m = s := by simpa using hs2
        subst hm
        obtain ⟨i, hi, hget, hmin, htake⟩ := ih m hfm
        refine ⟨i + 1, by simpa using Nat.succ_lt_succ hi, by simpa using hget, ?_, ?_⟩
        · intro t ht
          rcases List.mem_cons.mp ht with h | h
          · exact h ▸ le_of_lt hlt
          · exact hmin t h
        · intro t ht
          rcases List.mem_cons.mp (by simpa using ht) with h | h
          · exact h ▸ hlt
          · exact htake t h
      · rw [if_neg hlt] at hs2
        have hx : x = s := by simpa using hs2
        subst hx
        refine ⟨0, by simp, by simp, ?_, by simp⟩
        intro t ht
        rcases List.mem_cons.mp ht with h | h
        · exact h ▸ le_refl _
        · obtain ⟨i, hi, hget, hmin, _⟩ := ih m hfm
          exact le_trans (not_lt.mp hlt) (hmin t h)

/-- C7: for every non-empty candidate list the catalog client selection
(`sorted(images, key=cloud_cover)[0]`) picks the scene with minimum
cloud cover, ties broken by original listing order (first wins); for an
empty list it yields none, which is not an error. -/
theorem claim_c7 (l : List Scene) :
    selectScene l = firstMinScene l ∧
    (selectScene l = none ↔ l = []) ∧
    ∀ s, selectScene l = some s →
      ∃ i, ∃ h : i < l.length,
        l.get ⟨i, h⟩ = s ∧
        (∀ t ∈ l, s.cloudCover ≤ t.cloudCover) ∧
        (∀ t ∈ l.take i, s.cloudCover < t.cloudCover) := by
  refine ⟨selectScene_eq_firstMinScene l, ?_, ?_⟩
  · rw [selectScene_eq_firstMinScene]
    exact firstMinScene_eq_none l
  · intro s hs
    rw [selectScene_eq_firstMinScene] at hs
    exact firstMinScene_spec l s hs

/-- C7 witness: concrete check on the examples the spec gives — cloud covers
[40, 10, 25] select the 10 scene; a tie [10, 10, 25] selects the first;
an empty candidate list yields none. -/
theorem claim_c7_witness :
    selectScene [⟨"A", 40, "", "", ""⟩, ⟨"B", 10, "", "", ""⟩, ⟨"C", 25, "", "", ""⟩]
      = firstMinScene [⟨"A", 40, "", "", ""⟩, ⟨"B", 10, "", "", ""⟩, ⟨"C", 25, "", "", ""⟩] ∧
    selectScene [⟨"A", 40, "", "", ""⟩, ⟨"B", 10, "", "", ""⟩, ⟨"C", 25, "", "", ""⟩]
      = some ⟨"B", 10, "", "", ""⟩ ∧
    selectScene [⟨"A", 10, "", "", ""⟩, ⟨"B", 10, "", "", ""⟩, ⟨"C", 25, "", "", ""⟩]
      = some ⟨"A", 10, "", "", ""⟩ ∧
    selectScene ([] : List Scene) = none := by
  exact ⟨(claim_c7 _).1, by decide, by decide, ((claim_c7 ([] : List Scene)).2.1).mpr rfl⟩

/-- A bounding box `x_min, y_min, x_max, y_max` (the source carries it as
a comma-joined string; parsing it back with `float` is the identity on
the four numbers, so we keep the tuple). -/
structure Bbox where
  xMin : ℚ
  yMin : ℚ
  xMax : ℚ
  yMax : ℚ
deriving DecidableEq, Repr

/-- Source `generate_bbox(lat, lon, radius)` returns
`lon - radius, lat - radius, lon + radius, lat + radius`. -/
def generate_bbox (lat lon radius : ℚ) : Bbox :=
  ⟨lon - radius, lat - radius, lon + radius, lat + radius⟩

structure Coordinates where
  lat : ℚ
  lon : ℚ
deriving DecidableEq, Repr

/-- The box `validate_coordinates` builds: `generate_bbox(lat, lon, 0.00001)`. -/
def requestBox (coords : Coordinates) : Bbox :=
  generate_bbox coords.lat coords.lon (1 / 100000)

/-- The hard-coded allow-region of `validate_coordinates`
(`32.3960 ≤ x ≤ 33.2340`, `39.8200 ≤ y ≤ 40.4060`, "within Ankara"). -/
def allowRegion : Bbox := ⟨32.3960, 39.8200, 33.2340, 40.4060⟩

/-- Box `b` lies within region `r`: every edge of `b` inside `r`. -/
def bboxWithin (b r : Bbox) : Prop :=
  r.xMin ≤ b.xMin ∧ b.xMax ≤ r.xMax ∧ r.yMin ≤ b.yMin ∧ b.yMax ≤ r.yMax

instance (b r : Bbox) : Decidable (bboxWithin b r) := by
  unfold bboxWithin
  infer_instance

/-- Source `validate_coordinates(coords)`: builds the ±0.00001 box around the
point and returns the 400 error dict when any edge leaves the allow
region, else the box. Pure — no store or network access. -/
def validate_coordinates (coords : Coordinates) : Except (Nat × String) Bbox :=
  let bbox := requestBox coords
  if bbox.xMin < allowRegion.xMin ∨ bbox.xMax > allowRegion.xMax ∨
      bbox.yMin < allowRegion.yMin ∨ bbox.yMax > allowRegion.yMax then
    .error (400, "Coordinates out of bounds. Must be within Ankara.")
  else
    .ok bbox

/-- C8: the validator computes the box `(lon−r, lat−r, lon+r, lat+r)`
and fails with the 400 validation error exactly when that box is not
inside the hard-coded allow-region; when the box is inside it returns
the box itself (and, being a pure function, has no side effects). -/
theorem claim_c8 (coords : Coordinates) :
    (∀ lat lon r : ℚ, generate_bbox lat lon r = ⟨lon - r, lat - r, lon + r, lat + r⟩) ∧
    (validate_coordinates coords =
        .error (400, "Coordinates out of bounds. Must be within Ankara.") ↔
      ¬ bboxWithin (requestBox coords) allowRegion) ∧
    (bboxWithin (requestBox coords) allowRegion →
      validate_coordinates coords = .ok (requestBox coords)) := by
  refine ⟨fun _ _ _ => rfl, ?_, ?_⟩
  · unfold validate_coordinates bboxWithin
    by_cases h : (requestBox coords).xMin < allowRegion.xMin ∨
        (requestBox coords).xMax > allowRegion.xMax ∨
        (requestBox coords).yMin < allowRegion.yMin ∨
        (requestBox coords).yMax > allowRegion.yMax
    · rw [if_pos h]
      refine iff_of_true rfl ?_
      intro hin
      rcases h with h | h | h | h
      · exact absurd hin.1 (not_le.mpr h)
      · exact absurd hin.2.1 (not_le.mpr h)
      · exact absurd hin.2.2.1 (not_le.mpr h)
      · exact absurd hin.2.2.2 (not_le.mpr h)
    · rw [if_neg h]
      push_neg at h
      exact iff_of_false (by simp) (not_not_intro ⟨h.1, h.2.1, h.2.2.1, h.2.2.2⟩)
  · intro hin
    unfold validate_coordinates
    rw [if_neg]
    push_neg
    exact ⟨hin.1, hin.2.1, hin.2.2.1, hin.2.2.2⟩

/-- C8 witness: a concrete in-bounds point (lat 40, lon 33) yields its
box, and a concrete out-of-bounds point (lat 0, lon 0) is rejected. -/
theorem claim_c8_witness :
    bboxWithin (requestBox ⟨40, 33⟩) allowRegion ∧
    validate_coordinates ⟨40, 33⟩ = .ok (requestBox ⟨40, 33⟩) ∧
    validate_coordinates ⟨0, 0⟩ =
      .error (400, "Coordinates out of bounds. Must be within Ankara.") := by
  have hin : bboxWithin (requestBox ⟨40, 33⟩) allowRegion := by
    norm_num [bboxWithin, requestBox, generate_bbox, allowRegion]
  have hout : ¬ bboxWithin (requestBox ⟨0, 0⟩) allowRegion := by
    norm_num [bboxWithin, requestBox, generate_bbox, allowRegion]
  exact ⟨hin, (claim_c8 ⟨40, 33⟩).2.2 hin, (claim_c8 ⟨0, 0⟩).2.1.mpr hout⟩

/-- One pixel of the `calculate_ndmi` formula `(nir - swir) / (nir + swir)`:
`none` models the non-finite float (NaN/±inf) produced when the
denominator is zero — the source does not clamp or guard it. -/
def ndmiElem (nir swir : ℚ) : Option ℚ :=
  if nir + swir = 0 then none else some ((nir - swir) / (nir + swir))

/-- Numeric core of `calculate_ndmi`: the elementwise normalized
difference `(nir_array - swir_array) / (nir_array + swir_array)` over
the two band arrays (flattened). Float32 rounding is abstracted to
exact rationals. -/
def calculate_ndmi (nir swir : List ℚ) : List (Option ℚ) :=
  List.zipWith ndmiElem nir swir

/-- C9 counterexample: on NIR = [100, 50], SWIR = [50, 50] the first
pixel of the moisture index is (100−50)/(100+50) = 50/150 = 0.3333…,
not the 100/150 the claim names; the claimed value list is wrong. -/
theorem claim_c9_counterexample :
    calculate_ndmi [100, 50] [50, 50] ≠ [some (100 / 150), some 0] ∧
    calculate_ndmi [100, 50] [50, 50] = [some (50 / 150), some 0] := by
  constructor
  · intro h
    have h1 : ndmiElem 100 50 = some (100 / 150) := by
      simpa [calculate_ndmi] using congrArg List.head? h
    rw [ndmiElem] at h1
    norm_num at h1
  · norm_num [calculate_ndmi, ndmiElem]

/-- C9 (amended): the moisture index is the elementwise
`(NIR − SWIR)/(NIR + SWIR)`; on NIR = [100, 50], SWIR = [50, 50] it
yields [50/150, 0] = [0.3333…, 0.0]; on identical arrays it is 0 except
where the band value is 0, where 0/0 is non-finite (NaN), propagated
rather than clamped. -/
theorem claim_c9 :
    calculate_ndmi [100, 50] [50, 50] = [some (50 / 150), some 0] ∧
    (∀ l : List ℚ, calculate_ndmi l l =
      l.map (fun a => if a = 0 then none else some 0)) ∧
    ndmiElem 0 0 = none := by
  refine ⟨by norm_num [calculate_ndmi, ndmiElem], ?_, by simp [ndmiElem]⟩
  intro l
  induction l with
  | nil => rfl
  | cons a as ih =>
    simp only [calculate_ndmi, List.zipWith, List.map] at *
    refine congrArg₂ List.cons ?_ ih
    by_cases ha : a = 0
    · simp [ndmiElem, ha]
    · have hden : a + a ≠ 0 := by
        intro hc
        exact ha (by linarith [hc])
      simp [ndmiElem, hden, ha]

/-- A `MapLocations` record: `LocationID`, `coordinates`, `status`, and
the optional artifact URL fields the handler writes. -/
structure LocationData where
  locationID : String
  coordinates : Option Coordinates
  status : String
  ndmi : Option String
  msavi2 : Option String
deriving DecidableEq, Repr

/-- The catalog HTTP response: status code and the `features` list. -/
structure CatalogResponse where
  statusCode : Nat
  features : List Scene
deriving DecidableEq, Repr

/-- The input event of the handler: `httpMethod`, `pathParameters` (a dict,
possibly absent), `date`. -/
structure Event where
  httpMethod : Option String
  pathParameters : Option (List (String × String))
  date : Option String
deriving DecidableEq, Repr

/-- Oracle for every interaction the pipeline has with the outside
world during one invocation. `uploadOk` records whether
`s3.upload_file` succeeds for a key; a failing `upload_file` raises
`S3UploadFailedError` (a `Boto3Error`, not a `ClientError`), which the
inner `except ClientError` of `upload_to_s3` does not catch. -/
structure Env where
  getItem : String → Option LocationData
  catalog : CatalogResponse
  s3Exists : String → Bool
  localExists : String → Bool
  bandGetRaises : String → Bool
  uploadOk : String → Bool
  processingRaises : Bool
  bucketName : String

/-- Externally visible calls made during one invocation, in order. -/
inductive Effect where
  | getItemCall (key : String)
  | catalogCall
  | bandFetchCall (url : String)
  | headObject (key : String)
  | uploadFile (key : String)
  | putItem (rec : LocationData)
deriving DecidableEq, Repr

/-- A Python exception escaping a pipeline stage.
`s3UploadFailedError` is the `boto3.exceptions.S3UploadFailedError` a
failing `s3.upload_file` raises. -/
inductive PyError where
  | downloadError (band : String)
  | processingError
  | attributeError
  | s3UploadFailedError (key : String)
deriving DecidableEq, Repr

def localPath (imageId bandName : String) : String :=
  "/tmp/" ++ imageId ++ "_" ++ bandName ++ ".tif"

/-- Source `download_band`: skip the fetch when the scratch file already
exists; otherwise `requests.get` — when the request raises, the
exception escapes (any HTTP status that does not raise is written to
disk and treated as success by the source). -/
def download_band (env : Env) (bandName url lp : String) :
    List Effect × Except PyError (String × String) :=
  if env.localExists lp then ([], .ok (bandName, lp))
  else if env.bandGetRaises url then ([.bandFetchCall url], .error (.downloadError bandName))
  else ([.bandFetchCall url], .ok (bandName, lp))

structure BandPaths where
  nir : String
  swir : String
  red : String
deriving DecidableEq, Repr

/-- Source `download_sentinel_bands`: submits the nir/swir/red fetches to a
thread pool (all three run; we linearise their traces in submission
order) and collects `future.result()` in the same order, so the first
failed fetch re-raises and no partial path map is returned. -/
def download_sentinel_bands (env : Env) (image : Scene) :
    List Effect × Except PyError BandPaths :=
  let rNir := download_band env "nir" image.nirHref (localPath image.id "nir")
  let rSwir := download_band env "swir" image.swirHref (localPath image.id "swir")
  let rRed := download_band env "red" image.redHref (localPath image.id "red")
  (rNir.1 ++ rSwir.1 ++ rRed.1,
   match rNir.2, rSwir.2, rRed.2 with
   | .error e, _, _ => .error e
   | .ok _, .error e, _ => .error e
   | .ok _, .ok _, .error e => .error e
   | .ok n, .ok s, .ok r => .ok ⟨n.2, s.2, r.2⟩)

/-- Source `upload_to_s3`: `head_object`, and only when that raises a
`ClientError` (key absent) attempt `upload_file`. A failing
`upload_file` raises `S3UploadFailedError`, which is not a
`ClientError` subclass, so the inner `except ClientError` does not
catch it and the failure escapes this function. -/
def upload_to_s3 (env : Env) (objectName : String) :
    List Effect × Except PyError Unit :=
  if env.s3Exists objectName then ([.headObject objectName], .ok ())
  else if env.uploadOk objectName then
    ([.headObject objectName, .uploadFile objectName], .ok ())
  else
    ([.headObject objectName, .uploadFile objectName],
     .error (.s3UploadFailedError objectName))

def ndmiKey (imageId : String) : String := imageId ++ "_ndmi.tif"

def msavi2Key (imageId : String) : String := imageId ++ "_msavi2.tif"

/-- Source `process_sentinel_image`: download the three bands (an error there
propagates), then resample/open/compute the two indices
(`processingRaises` abstracts a raster failure anywhere in that block),
then submit both `upload_to_s3` calls to a thread pool. Both upload
futures run; `future.result()` is collected in submission order (ndmi
first), so the first failing upload re-raises out of this function. -/
def process_sentinel_image (env : Env) (image : Scene) :
    List Effect × Except PyError Unit :=
  let dl := download_sentinel_bands env image
  match dl.2 with
  | .error e => (dl.1, .error e)
  | .ok _ =>
    if env.processingRaises then (dl.1, .error .processingError)
    else
      let up1 := upload_to_s3 env (ndmiKey image.id)
      let up2 := upload_to_s3 env (msavi2Key image.id)
      (dl.1 ++ up1.1 ++ up2.1,
       match up1.2, up2.2 with
       | .error e, _ => .error e
       | .ok _, .error e => .error e
       | .ok _, .ok _ => .ok ())

/-- The response dict of the handler: `statusCode`, `message`, and the
optional `ndmi`/`msavi2` keys. -/
structure HandlerResponse where
  statusCode : Nat
  message : String
  ndmi : Option String
  msavi2 : Option String
deriving DecidableEq, Repr

/-- Source `check_existing_images`: two independent `head_object` existence
checks; when both keys exist return the "already processed" response
carrying the existing references (the `#UPDATE STATUS` comment marks
that no status write happens here). -/
def check_existing_images (env : Env) (imageId : String) :
    List Effect × Option HandlerResponse :=
  ([.headObject (ndmiKey imageId), .headObject (msavi2Key imageId)],
   if env.s3Exists (ndmiKey imageId) && env.s3Exists (msavi2Key imageId) then
     some ⟨200, "Image already processed.", some (ndmiKey imageId), some (msavi2Key imageId)⟩
   else none)

/-- Source `fetch_sentinel_image`: one catalog request; only an HTTP 200
response is inspected — anything else falls off the end of the function
and yields `None`, exactly like an empty feature list. -/
def fetch_sentinel_image (resp : CatalogResponse) : Option Scene :=
  if resp.statusCode = 200 then selectScene resp.features else none

inductive HandlerResult where
  | response (r : HandlerResponse)
  | exception (e : PyError)
deriving DecidableEq, Repr

def defaultLocationId : String := "70eb8165-7319-4b75-9807-df146714ff3a"

/-- Source line `event.get("pathParameters", dict()).get("uuid", "70eb8165-…")`. -/
def eventLocationId (event : Event) : String :=
  ((event.pathParameters.getD []).lookup "uuid").getD defaultLocationId

def artifactUrl (bucket key : String) : String :=
  "https://" ++ bucket ++ ".s3.amazonaws.com/" ++ key

/-- The lambda `handler`, with its effect trace: method check, record
fetch (404 when absent), coordinate validation (400 out of bounds),
catalog query, cache guard (early return when both artifacts exist),
`PROCESSING` write, processing, `PROCESSED` + artifact-URL write,
success response; a missing-scene catalog result returns 404. -/
def handler (env : Env) (event : Event) : List Effect × HandlerResult :=
  if event.httpMethod ≠ some "POST" then
    ([], .response ⟨405, "Method not allowed", none, none⟩)
  else
    let locationId := eventLocationId event
    match env.getItem locationId with
    | none => ([.getItemCall locationId], .response ⟨404, "Location not found.", none, none⟩)
    | some locationData =>
      match locationData.coordinates with
      | none => ([.getItemCall locationId], .exception .attributeError)
      | some coords =>
        match validate_coordinates coords with
        | .error (code, msg) => ([.getItemCall locationId], .response ⟨code, msg, none, none⟩)
        | .ok _ =>
          match fetch_sentinel_image env.catalog with
          | none =>
            ([.getItemCall locationId, .catalogCall],
             .response ⟨404, "No suitable image found.", none, none⟩)
          | some image =>
            let cache := check_existing_images env image.id
            let tr0 := .getItemCall locationId :: .catalogCall :: cache.1
            match cache.2 with
            | some resp => (tr0, .response resp)
            | none =>
              let procRec := { locationData with status := "PROCESSING" }
              let proc := process_sentinel_image env image
              match proc.2 with
              | .error e => (tr0 ++ .putItem procRec :: proc.1, .exception e)
              | .ok _ =>
                let doneRec := { procRec with
                  status := "PROCESSED"
                  ndmi := some (artifactUrl env.bucketName (ndmiKey image.id))
                  msavi2 := some (artifactUrl env.bucketName (msavi2Key image.id)) }
                (tr0 ++ .putItem procRec :: (proc.1 ++ [.putItem doneRec]),
                 .response ⟨200, "Image processed successfully.",
                   some (ndmiKey image.id), some (msavi2Key image.id)⟩)

theorem validate_ok_of_within (coords : Coordinates)
    (hin : bboxWithin (requestBox coords) allowRegion) :
    validate_coordinates coords = .ok (requestBox coords) := by
  unfold validate_coordinates
  rw [if_neg]
  push_neg
  exact ⟨hin.1, hin.2.1, hin.2.2.1, hin.2.2.2⟩

theorem download_band_classify (env : Env) (b u p : String) :
    (download_band env b u p).2 = .ok (b, p) ∨
      ((download_band env b u p).2 = .error (.downloadError b) ∧
        env.localExists p = false ∧ env.bandGetRaises u = true) := by
  unfold download_band
  by_cases h1 : env.localExists p
  · left
    simp [h1]
  · by_cases h2 : env.bandGetRaises u
    · right
      simp [h1, h2]
    · left
      simp [h1, h2]

theorem download_band_fails (env : Env) (b u p : String)
    (h1 : env.localExists p = false) (h2 : env.bandGetRaises u = true) :
    (download_band env b u p).2 = .error (.downloadError b) := by
  unfold download_band
  simp [h1, h2]

theorem download_band_trace (env : Env) (b u p : String) :
    ∀ e ∈ (download_band env b u p).1, ∃ x, e = Effect.bandFetchCall x := by
  unfold download_band
  by_cases h1 : env.localExists p
  · simp [h1]
  · by_cases h2 : env.bandGetRaises u <;> simp [h1, h2]

theorem download_sentinel_bands_trace (env : Env) (image : Scene) :
    ∀ e ∈ (download_sentinel_bands env image).1, ∃ x, e = Effect.bandFetchCall x := by
  intro e he
  unfold download_sentinel_bands at he
  simp only [List.mem_append] at he
  rcases he with (he | he) | he
  · exact download_band_trace env "nir" image.nirHref (localPath image.id "nir") e he
  · exact download_band_trace env "swir" image.swirHref (localPath image.id "swir") e he
  · exact download_band_trace env "red" image.redHref (localPath image.id "red") e he

theorem upload_to_s3_trace (env : Env) (k : String) :
    ∀ e ∈ (upload_to_s3 env k).1,
      (∃ x, e = Effect.headObject x) ∨ (∃ x, e = Effect.uploadFile x) := by
  unfold upload_to_s3
  by_cases h1 : env.s3Exists k
  · simp [h1]
  · by_cases h2 : env.uploadOk k <;> simp [h1, h2]

theorem process_sentinel_image_trace (env : Env) (image : Scene) :
    ∀ e ∈ (process_sentinel_image env image).1,
      (∃ x, e = Effect.bandFetchCall x) ∨ (∃ x, e = Effect.headObject x) ∨
        (∃ x, e = Effect.uploadFile x) := by
  intro e he
  cases hd : (download_sentinel_bands env image).2 with
  | error err =>
    simp only [process_sentinel_image, hd] at he
    exact Or.inl (download_sentinel_bands_trace env image e he)
  | ok v =>
    by_cases hp : env.processingRaises = true
    · simp only [process_sentinel_image, hd, hp, if_true] at he
      exact Or.inl (download_sentinel_bands_trace env image e he)
    · simp only [process_sentinel_image, hd, hp, if_false] at he
      have he2 : e ∈ (download_sentinel_bands env image).1 ++
          (upload_to_s3 env (ndmiKey image.id)).1 ++ (upload_to_s3 env (msavi2Key image.id)).1 := he
      rcases List.mem_append.mp he2 with hx | hx
      · rcases List.mem_append.mp hx with hy | hy
        · exact Or.inl (download_sentinel_bands_trace env image e hy)
        · rcases upload_to_s3_trace env (ndmiKey image.id) e hy with h | h
          · exact Or.inr (Or.inl h)
          · exact Or.inr (Or.inr h)
      · rcases upload_to_s3_trace env (msavi2Key image.id) e hx with h | h
        · exact Or.inr (Or.inl h)
        · exact Or.inr (Or.inr h)

theorem process_sentinel_image_trace_no_putItem (env : Env) (image : Scene) :
    ∀ e ∈ (process_sentinel_image env image).1, ∀ r, e ≠ Effect.putItem r := by
  intro e he r
  rcases process_sentinel_image_trace env image e he with ⟨x, hx⟩ | ⟨x, hx⟩ | ⟨x, hx⟩ <;>
    simp [hx]

theorem handler_no_image (env : Env) (event : Event)
    (hm : event.httpMethod = some "POST")
    (ld : LocationData) (hld : env.getItem (eventLocationId event) = some ld)
    (c : Coordinates) (hc : ld.coordinates = some c)
    (bbox : Bbox) (hv : validate_coordinates c = .ok bbox)
    (hno : fetch_sentinel_image env.catalog = none) :
    handler env event =
      ([.getItemCall (eventLocationId event), .catalogCall],
       .response ⟨404, "No suitable image found.", none, none⟩) := by
  simp [handler, hm, hld, hc, hv, hno]

theorem handler_cached (env : Env) (event : Event)
    (hm : event.httpMethod = some "POST")
    (ld : LocationData) (hld : env.getItem (eventLocationId event) = some ld)
    (c : Coordinates) (hc : ld.coordinates = some c)
    (bbox : Bbox) (hv : validate_coordinates c = .ok bbox)
    (img : Scene) (hi : fetch_sentinel_image env.catalog = some img)
    (h1 : env.s3Exists (ndmiKey img.id) = true)
    (h2 : env.s3Exists (msavi2Key img.id) = true) :
    handler env event =
      ([.getItemCall (eventLocationId event), .catalogCall,
        .headObject (ndmiKey img.id), .headObject (msavi2Key img.id)],
       .response ⟨200, "Image already processed.",
         some (ndmiKey img.id), some (msavi2Key img.id)⟩) := by
  simp [handler, check_existing_images, hm, hld, hc, hv, hi, h1, h2]

theorem handler_procfail (env : Env) (event : Event)
    (hm : event.httpMethod = some "POST")
    (ld : LocationData) (hld : env.getItem (eventLocationId event) = some ld)
    (c : Coordinates) (hc : ld.coordinates = some c)
    (bbox : Bbox) (hv : validate_coordinates c = .ok bbox)
    (img : Scene) (hi : fetch_sentinel_image env.catalog = some img)
    (hcache : (env.s3Exists (ndmiKey img.id) && env.s3Exists (msavi2Key img.id)) = false)
    (e : PyError) (he : (process_sentinel_image env img).2 = .error e) :
    handler env event =
      (.getItemCall (eventLocationId event) :: .catalogCall ::
         .headObject (ndmiKey img.id) :: .headObject (msavi2Key img.id) ::
         .putItem { ld with status := "PROCESSING" } :: (process_sentinel_image env img).1,
       .exception e) := by
  simp [handler, check_existing_images, hm, hld, hc, hv, hi, hcache, he]

theorem handler_success (env : Env) (event : Event)
    (hm : event.httpMethod = some "POST")
    (ld : LocationData) (hld : env.getItem (eventLocationId event) = some ld)
    (c : Coordinates) (hc : ld.coordinates = some c)
    (bbox : Bbox) (hv : validate_coordinates c = .ok bbox)
    (img : Scene) (hi : fetch_sentinel_image env.catalog = some img)
    (hcache : (env.s3Exists (ndmiKey img.id) && env.s3Exists (msavi2Key img.id)) = false)
    (hok : (process_sentinel_image env img).2 = .ok ()) :
    handler env event =
      (.getItemCall (eventLocationId event) :: .catalogCall ::
         .headObject (ndmiKey img.id) :: .headObject (msavi2Key img.id) ::
         .putItem { ld with status := "PROCESSING" } ::
         ((process_sentinel_image env img).1 ++
           [.putItem { ld with
              status := "PROCESSED"
              ndmi := some (artifactUrl env.bucketName (ndmiKey img.id))
              msavi2 := some (artifactUrl env.bucketName (msavi2Key img.id)) }]),
       .response ⟨200, "Image processed successfully.",
         some (ndmiKey img.id), some (msavi2Key img.id)⟩) := by
  simp [handler, check_existing_images, hm, hld, hc, hv, hi, hcache, hok]

/-- Concrete scene used to instantiate the oracle environments. -/
def sceneA : Scene := ⟨"S1", 10, "uNir", "uSwir", "uRed"⟩

/-- Concrete location record with in-bounds (Ankara) coordinates. -/
def locA : LocationData := ⟨"loc1", some ⟨40, 33⟩, "CREATED", none, none⟩

/-- Concrete POST event without path parameters. -/
def postEvent : Event := ⟨some "POST", none, none⟩

/-- Environment for a fresh run: record found, catalog healthy with one
scene, nothing cached locally or in the blob store, all calls succeed. -/
def envFresh : Env :=
  ⟨fun _ => some locA, ⟨200, [sceneA]⟩, fun _ => false, fun _ => false,
   fun _ => false, fun _ => true, false, "bkt"⟩

/-- Same but both artifacts already exist in the blob store. -/
def envCached : Env := { envFresh with s3Exists := fun _ => true }

/-- Variant of `envFresh` where `s3.upload_file` would fail for every key. -/
def envUploadFail : Env := { envFresh with uploadOk := fun _ => false }

/-- Variant of `envFresh` where every band HTTP fetch raises. -/
def envBandFail : Env := { envFresh with bandGetRaises := fun _ => true }

/-- Variant of `envFresh` where the catalog answers HTTP 500. -/
def envCat500 : Env := { envFresh with catalog := ⟨500, [sceneA]⟩ }

/-- Variant of `envFresh` where the catalog lists zero candidates. -/
def envCatEmpty : Env := { envFresh with catalog := ⟨200, []⟩ }

theorem locA_within : bboxWithin (requestBox ⟨40, 33⟩) allowRegion := by
  norm_num [bboxWithin, requestBox, generate_bbox, allowRegion]

theorem locA_validate :
    validate_coordinates ⟨40, 33⟩ = .ok (requestBox ⟨40, 33⟩) :=
  validate_ok_of_within _ locA_within

/-- C3: if any one of the three band fetches raises (its scratch file is
absent and the HTTP get fails), the whole band-fetch operation fails
with a download error, never returns a (partial) path map, the
surrounding processing stage fails too, and no artifact upload is
attempted. -/
theorem claim_c3 (env : Env) (image : Scene)
    (h : (env.localExists (localPath image.id "nir") = false ∧
            env.bandGetRaises image.nirHref = true) ∨
         (env.localExists (localPath image.id "swir") = false ∧
            env.bandGetRaises image.swirHref = true) ∨
         (env.localExists (localPath image.id "red") = false ∧
            env.bandGetRaises image.redHref = true)) :
    (∃ b, (download_sentinel_bands env image).2 = .error (.downloadError b)) ∧
    (∀ paths, (download_sentinel_bands env image).2 ≠ .ok paths) ∧
    (∃ e2, (process_sentinel_image env image).2 = .error e2) ∧
    (∀ k, Effect.uploadFile k ∉ (process_sentinel_image env image).1) := by
  have herr : ∃ b, (download_sentinel_bands env image).2 = .error (.downloadError b) := by
    rcases download_band_classify env "nir" image.nirHref (localPath image.id "nir")
      with h1 | ⟨h1, -, -⟩
    · rcases download_band_classify env "swir" image.swirHref (localPath image.id "swir")
        with h2 | ⟨h2, -, -⟩
      · rcases download_band_classify env "red" image.redHref (localPath image.id "red")
          with h3 | ⟨h3, -, -⟩
        · exfalso
          rcases h with ⟨ha, hb⟩ | ⟨ha, hb⟩ | ⟨ha, hb⟩
          · have hf := download_band_fails env "nir" image.nirHref (localPath image.id "nir") ha hb
            rw [h1] at hf
            exact absurd hf (by simp)
          · have hf := download_band_fails env "swir" image.swirHref (localPath image.id "swir") ha hb
            rw [h2] at hf
            exact absurd hf (by simp)
          · have hf := download_band_fails env "red" image.redHref (localPath image.id "red") ha hb
            rw [h3] at hf
            exact absurd hf (by simp)
        · exact ⟨"red", by simp [download_sentinel_bands, h1, h2, h3]⟩
      · exact ⟨"swir", by simp [download_sentinel_bands, h1, h2]⟩
    · exact ⟨"nir", by simp [download_sentinel_bands, h1]⟩
  obtain ⟨b, hb⟩ := herr
  refine ⟨⟨b, hb⟩, ?_, ⟨.downloadError b, by simp [process_sentinel_image, hb]⟩, ?_⟩
  · intro paths hp
    rw [hb] at hp
    exact absurd hp (by simp)
  · intro k hk
    have hk2 : Effect.uploadFile k ∈ (download_sentinel_bands env image).1 := by
      simpa [process_sentinel_image, hb] using hk
    obtain ⟨x, hx⟩ := download_sentinel_bands_trace env image _ hk2
    exact absurd hx (by simp)

/-- C3 witness: with every band HTTP fetch raising, the concrete fresh
environment never returns the full path map and attempts no upload. -/
theorem claim_c3_witness :
    (download_sentinel_bands envBandFail sceneA).2 ≠
      .ok ⟨localPath sceneA.id "nir", localPath sceneA.id "swir", localPath sceneA.id "red"⟩ ∧
    Effect.uploadFile (ndmiKey sceneA.id) ∉ (process_sentinel_image envBandFail sceneA).1 := by
  have h := claim_c3 envBandFail sceneA (Or.inl ⟨rfl, rfl⟩)
  exact ⟨h.2.1 _, h.2.2.2 (ndmiKey sceneA.id)⟩

/-- C4 counterexample: a non-2xx catalog response (HTTP 500) makes
`fetch_sentinel_image` return `None` — the same value as a 200 response
with zero candidates — and the handler answers the identical 404 "No
suitable image found." response; there is no distinct
`CatalogUnavailable` failure. -/
theorem claim_c4_counterexample :
    fetch_sentinel_image ⟨500, [sceneA]⟩ = none ∧
    fetch_sentinel_image ⟨200, []⟩ = none ∧
    handler envCat500 postEvent =
      ([.getItemCall defaultLocationId, .catalogCall],
       .response ⟨404, "No suitable image found.", none, none⟩) ∧
    handler envCat500 postEvent = handler envCatEmpty postEvent := by
  have e1 : handler envCat500 postEvent =
      ([.getItemCall defaultLocationId, .catalogCall],
       .response ⟨404, "No suitable image found.", none, none⟩) :=
    handler_no_image envCat500 postEvent rfl locA rfl ⟨40, 33⟩ rfl
      (requestBox ⟨40, 33⟩) locA_validate rfl
  have e2 : handler envCatEmpty postEvent =
      ([.getItemCall defaultLocationId, .catalogCall],
       .response ⟨404, "No suitable image found.", none, none⟩) :=
    handler_no_image envCatEmpty postEvent rfl locA rfl ⟨40, 33⟩ rfl
      (requestBox ⟨40, 33⟩) locA_validate rfl
  exact ⟨rfl, rfl, e1, e1.trans e2.symm⟩

/-- C4 (amended): a non-200 catalog response makes the catalog client
return no scene at all (any non-200 status is never inspected), and a
run that reaches the catalog query then ends in the same 404 "No
suitable image found." result as an empty candidate list. -/
theorem claim_c4 (env : Env) (event : Event)
    (hm : event.httpMethod = some "POST")
    (ld : LocationData) (hld : env.getItem (eventLocationId event) = some ld)
    (c : Coordinates) (hc : ld.coordinates = some c)
    (bbox : Bbox) (hv : validate_coordinates c = .ok bbox)
    (hcat : env.catalog.statusCode ≠ 200) :
    fetch_sentinel_image env.catalog = none ∧
    handler env event =
      ([.getItemCall (eventLocationId event), .catalogCall],
       .response ⟨404, "No suitable image found.", none, none⟩) := by
  have hno : fetch_sentinel_image env.catalog = none := by
    unfold fetch_sentinel_image
    rw [if_neg hcat]
  exact ⟨hno, handler_no_image env event hm ld hld c hc bbox hv hno⟩

/-- C4 witness: the amended statement at the concrete HTTP-500 catalog. -/
theorem claim_c4_witness :
    fetch_sentinel_image envCat500.catalog = none ∧
    handler envCat500 postEvent =
      ([.getItemCall (eventLocationId postEvent), .catalogCall],
       .response ⟨404, "No suitable image found.", none, none⟩) :=
  claim_c4 envCat500 postEvent rfl locA rfl ⟨40, 33⟩ rfl
    (requestBox ⟨40, 33⟩) locA_validate (by decide)

theorem handler_congr_event (env : Env) (e1 e2 : Event)
    (h1 : e1.httpMethod = e2.httpMethod)
    (h2 : eventLocationId e1 = eventLocationId e2) :
    handler env e1 = handler env e2 := by
  simp only [handler]
  rw [h1, h2]

/-- C10: a POST event with no `pathParameters` map, or with one lacking
a `uuid` entry, is not rejected: the handler runs with the fixed
default location id, exactly as if that id had been supplied. -/
theorem claim_c10 (env : Env) (event : Event)
    (h : event.pathParameters = none ∨
      (event.pathParameters.getD []).lookup "uuid" = none) :
    eventLocationId event = defaultLocationId ∧
    handler env event =
      handler env { event with pathParameters := some [("uuid", defaultLocationId)] } := by
  have hid : eventLocationId event = defaultLocationId := by
    rcases h with h | h <;> simp [eventLocationId, h]
  refine ⟨hid, handler_congr_event env _ _ rfl ?_⟩
  rw [hid]
  rfl

/-- C10 witness: the concrete POST event with absent `pathParameters`
resolves to the default id and behaves as if it had been supplied. -/
theorem claim_c10_witness :
    eventLocationId postEvent = defaultLocationId ∧
    handler envFresh postEvent =
      handler envFresh { postEvent with pathParameters := some [("uuid", defaultLocationId)] } :=
  claim_c10 envFresh postEvent (Or.inl rfl)

/-- C1 counterexample: with both artifact keys already in the blob
store, the second invocation does return the cached references with
"Image already processed." — but its trace contains a catalog call, so
it does not perform zero network calls to the catalog. -/
theorem claim_c1_counterexample :
    (handler envCached postEvent).2 =
      .response ⟨200, "Image already processed.",
        some (ndmiKey "S1"), some (msavi2Key "S1")⟩ ∧
    Effect.catalogCall ∈ (handler envCached postEvent).1 := by
  have heq := handler_cached envCached postEvent rfl locA rfl ⟨40, 33⟩ rfl
    (requestBox ⟨40, 33⟩) locA_validate sceneA rfl rfl rfl
  constructor
  · rw [heq]
    rfl
  · rw [heq]
    simp

/-- C1 (amended): when both artifact keys exist, the invocation returns
the cached references with the "already processed" result and performs
zero band fetches, zero uploads, and zero record writes — but it still
issues exactly one catalog call (the catalog is queried before the
cache guard, to learn the scene id). -/
theorem claim_c1 (env : Env) (event : Event)
    (hm : event.httpMethod = some "POST")
    (ld : LocationData) (hld : env.getItem (eventLocationId event) = some ld)
    (c : Coordinates) (hc : ld.coordinates = some c)
    (bbox : Bbox) (hv : validate_coordinates c = .ok bbox)
    (img : Scene) (hi : fetch_sentinel_image env.catalog = some img)
    (h1 : env.s3Exists (ndmiKey img.id) = true)
    (h2 : env.s3Exists (msavi2Key img.id) = true) :
    handler env event =
      ([.getItemCall (eventLocationId event), .catalogCall,
        .headObject (ndmiKey img.id), .headObject (msavi2Key img.id)],
       .response ⟨200, "Image already processed.",
         some (ndmiKey img.id), some (msavi2Key img.id)⟩) ∧
    (∀ u, Effect.bandFetchCall u ∉ (handler env event).1) ∧
    (∀ k, Effect.uploadFile k ∉ (handler env event).1) ∧
    (∀ r, Effect.putItem r ∉ (handler env event).1) ∧
    (handler env event).1.count Effect.catalogCall = 1 := by
  have heq := handler_cached env event hm ld hld c hc bbox hv img hi h1 h2
  refine ⟨heq, ?_, ?_, ?_, ?_⟩
  · intro u
    rw [heq]
    simp
  · intro k
    rw [heq]
    simp
  · intro r
    rw [heq]
    simp
  · rw [heq]
    simp [List.count_cons]

/-- C1 witness: the amended statement instantiated at the concrete
cached environment. -/
theorem claim_c1_witness :
    handler envCached postEvent =
      ([.getItemCall (eventLocationId postEvent), .catalogCall,
        .headObject (ndmiKey sceneA.id), .headObject (msavi2Key sceneA.id)],
       .response ⟨200, "Image already processed.",
         some (ndmiKey sceneA.id), some (msavi2Key sceneA.id)⟩) ∧
    (handler envCached postEvent).1.count Effect.catalogCall = 1 := by
  have h := claim_c1 envCached postEvent rfl locA rfl ⟨40, 33⟩ rfl
    (requestBox ⟨40, 33⟩) locA_validate sceneA rfl rfl rfl
  exact ⟨h.1, h.2.2.2.2⟩

/-- C5: in every run where a scene is found and the cache guard misses,
the record is written with status `PROCESSING` before any heavy
computation (no band fetch or upload precedes it); every later record
write carries status `PROCESSED` (never back to `CREATED`); and when
processing completes successfully the final effect is the `PROCESSED`
write carrying both artifact URLs and the run returns the success
response, while a failing run performs no further record write and
surfaces the exception. -/
theorem claim_c5 (env : Env) (event : Event)
    (hm : event.httpMethod = some "POST")
    (ld : LocationData) (hld : env.getItem (eventLocationId event) = some ld)
    (c : Coordinates) (hc : ld.coordinates = some c)
    (bbox : Bbox) (hv : validate_coordinates c = .ok bbox)
    (img : Scene) (hi : fetch_sentinel_image env.catalog = some img)
    (hcache : (env.s3Exists (ndmiKey img.id) && env.s3Exists (msavi2Key img.id)) = false) :
    ∃ t₁ t₂ : List Effect,
      (handler env event).1 = t₁ ++ .putItem { ld with status := "PROCESSING" } :: t₂ ∧
      (∀ e ∈ t₁, (∀ r, e ≠ Effect.putItem r) ∧ (∀ u, e ≠ Effect.bandFetchCall u) ∧
        (∀ k, e ≠ Effect.uploadFile k)) ∧
      (∀ r, Effect.putItem r ∈ t₂ → r.status = "PROCESSED") ∧
      ((process_sentinel_image env img).2 = .ok () →
        t₂ = (process_sentinel_image env img).1 ++
          [.putItem { ld with
             status := "PROCESSED"
             ndmi := some (artifactUrl env.bucketName (ndmiKey img.id))
             msavi2 := some (artifactUrl env.bucketName (msavi2Key img.id)) }] ∧
        (handler env event).2 =
          .response ⟨200, "Image processed successfully.",
            some (ndmiKey img.id), some (msavi2Key img.id)⟩) ∧
      (∀ e, (process_sentinel_image env img).2 = .error e →
        t₂ = (process_sentinel_image env img).1 ∧
        (handler env event).2 = .exception e) := by
  have ht1 : ∀ e ∈ ([.getItemCall (eventLocationId event), .catalogCall,
      .headObject (ndmiKey img.id), .headObject (msavi2Key img.id)] : List Effect),
      (∀ r, e ≠ Effect.putItem r) ∧ (∀ u, e ≠ Effect.bandFetchCall u) ∧
        (∀ k, e ≠ Effect.uploadFile k) := by
    intro e he
    simp only [List.mem_cons, List.not_mem_nil, or_false] at he
    rcases he with h | h | h | h <;> subst h <;> exact ⟨by simp, by simp, by simp⟩
  cases hproc : (process_sentinel_image env img).2 with
  | ok u =>
    cases u
    have heq := handler_success env event hm ld hld c hc bbox hv img hi hcache hproc
    refine ⟨[.getItemCall (eventLocationId event), .catalogCall,
             .headObject (ndmiKey img.id), .headObject (msavi2Key img.id)],
            (process_sentinel_image env img).1 ++
              [.putItem { ld with
                 status := "PROCESSED"
                 ndmi := some (artifactUrl env.bucketName (ndmiKey img.id))
                 msavi2 := some (artifactUrl env.bucketName (msavi2Key img.id)) }],
            ?_, ht1, ?_, ?_, ?_⟩
    · rw [heq]
      rfl
    · intro r hr
      rcases List.mem_append.mp hr with h | h
      · exact absurd rfl (process_sentinel_image_trace_no_putItem env img _ h r)
      · have hr2 : r = { ld with
            status := "PROCESSED"
            ndmi := some (artifactUrl env.bucketName (ndmiKey img.id))
            msavi2 := some (artifactUrl env.bucketName (msavi2Key img.id)) } := by
          simpa using h
        rw [hr2]
    · intro _
      exact ⟨rfl, by rw [heq]⟩
    · intro e hee
      exact absurd hee (by simp)
  | error e0 =>
    have heq := handler_procfail env event hm ld hld c hc bbox hv img hi hcache e0 hproc
    refine ⟨[.getItemCall (eventLocationId event), .catalogCall,
             .headObject (ndmiKey img.id), .headObject (msavi2Key img.id)],
            (process_sentinel_image env img).1, ?_, ht1, ?_, ?_, ?_⟩
    · rw [heq]
      rfl
    · intro r hr
      exact absurd rfl (process_sentinel_image_trace_no_putItem env img _ hr r)
    · intro hok
      exact absurd hok (by simp)
    · intro e hee
      have he0 : e0 = e := by simpa using hee
      subst he0
      exact ⟨rfl, by rw [heq]⟩

/-- C5 witness: in the concrete fresh run the `PROCESSING` write occurs,
the final `PROCESSED` write carries both artifact URLs, and the handler
returns the success response. -/
theorem claim_c5_witness :
    (handler envFresh postEvent).2 =
      .response ⟨200, "Image processed successfully.",
        some (ndmiKey sceneA.id), some (msavi2Key sceneA.id)⟩ ∧
    Effect.putItem { locA with status := "PROCESSING" } ∈ (handler envFresh postEvent).1 ∧
    Effect.putItem { locA with
        status := "PROCESSED"
        ndmi := some (artifactUrl envFresh.bucketName (ndmiKey sceneA.id))
        msavi2 := some (artifactUrl envFresh.bucketName (msavi2Key sceneA.id)) } ∈
      (handler envFresh postEvent).1 := by
  obtain ⟨t₁, t₂, h1, -, -, h4, -⟩ :=
    claim_c5 envFresh postEvent rfl locA rfl ⟨40, 33⟩ rfl
      (requestBox ⟨40, 33⟩) locA_validate sceneA rfl rfl
  obtain ⟨ht2, hres⟩ := h4 rfl
  subst ht2
  refine ⟨hres, ?_, ?_⟩
  · rw [h1]
    simp
  · rw [h1]
    simp

/-- C6: an `UpstreamError` or `ProcessingError` escaping the processing
stage after the `PROCESSING` write — a band download failure, a raster
failure, or a failed artifact upload (whose `S3UploadFailedError` is
not caught by the `except ClientError` inside `upload_to_s3`) —
escapes the handler as an exception: a failure result, never a success
response. -/
theorem claim_c6 (env : Env) (event : Event)
    (hm : event.httpMethod = some "POST")
    (ld : LocationData) (hld : env.getItem (eventLocationId event) = some ld)
    (c : Coordinates) (hc : ld.coordinates = some c)
    (bbox : Bbox) (hv : validate_coordinates c = .ok bbox)
    (img : Scene) (hi : fetch_sentinel_image env.catalog = some img)
    (hcache : (env.s3Exists (ndmiKey img.id) && env.s3Exists (msavi2Key img.id)) = false)
    (e : PyError) (he : (process_sentinel_image env img).2 = .error e) :
    (handler env event).2 = .exception e ∧
    (∀ r : HandlerResponse, (handler env event).2 ≠ .response r) := by
  have heq := handler_procfail env event hm ld hld c hc bbox hv img hi hcache e he
  constructor
  · rw [heq]
  · intro r hr
    rw [heq] at hr
    exact absurd hr (by simp)

/-- C6 witness: at the concrete environment where both keys are absent
and every `upload_file` fails, the ndmi upload raises
`S3UploadFailedError` after the `PROCESSING` write and the handler
surfaces it as an exception, not the success response. -/
theorem claim_c6_witness :
    (handler envUploadFail postEvent).2 =
      .exception (.s3UploadFailedError (ndmiKey "S1")) ∧
    (handler envUploadFail postEvent).2 ≠
      .response ⟨200, "Image processed successfully.",
        some (ndmiKey "S1"), some (msavi2Key "S1")⟩ := by
  have h := claim_c6 envUploadFail postEvent rfl locA rfl ⟨40, 33⟩ rfl
    (requestBox ⟨40, 33⟩) locA_validate sceneA rfl rfl
    (.s3UploadFailedError (ndmiKey "S1")) rfl
  exact ⟨h.1, h.2 _⟩

/-- A single-band raster as `process_image` of the api module sees it:
`RasterXSize`, `RasterYSize`, geotransform, projection, and the pixel
array of the band ravelled row-major (length `xSize * ySize`). -/
structure Raster where
  xSize : Nat
  ySize : Nat
  geoTransform : List ℚ
  projection : String
  data : List ℚ
deriving DecidableEq, Repr

/-- The byte raster `process_image` creates for the labels. -/
structure ByteRaster where
  xSize : Nat
  ySize : Nat
  geoTransform : List ℚ
  projection : String
  labels : List Nat
deriving DecidableEq, Repr

/-- The `(xsize, ysize)` pair the source passes to
`driver.Create("/tmp/labels.tif", msavi2.RasterYSize, msavi2.RasterXSize, 1, GDT_Byte)`
— gdal `Create` takes `(xsize, ysize)`, and the source passes
`RasterYSize` first. -/
def labelsOutputDims (msavi2 : Raster) : Nat × Nat :=
  (msavi2.ySize, msavi2.xSize)

/-- Source `process_image(msavi2, ndmi, ...)`: stack the two ravelled index
arrays into an n×2 feature matrix, run the clustering collaborator
(`kmeansLabels`, one integer label per row), reshape the labels to the
`(RasterYSize, RasterXSize)` grid, and write them into the byte raster
created with `labelsOutputDims`; `gdal.WriteArray` raises when the
label grid exceeds the created band in either dimension (the
surrounding `except ClientError` does not catch that), and `reshape`
raises when the label count does not match the grid. The created
raster (returned here so its shape can be inspected) carries the
geotransform and projection of the input. -/
def process_image (kmeansLabels : List (ℚ × ℚ) → List Nat)
    (msavi2 ndmi : Raster) : Except String ByteRaster :=
  let labels := kmeansLabels (msavi2.data.zip ndmi.data)
  if labels.length ≠ msavi2.ySize * msavi2.xSize then
    .error "reshape: size mismatch"
  else
    let outXSize := (labelsOutputDims msavi2).1
    let outYSize := (labelsOutputDims msavi2).2
    if msavi2.ySize ≤ outYSize ∧ msavi2.xSize ≤ outXSize then
      .ok ⟨outXSize, outYSize, msavi2.geoTransform, msavi2.projection, labels⟩
    else
      .error "WriteArray: array larger than raster"

/-- Degenerate clustering collaborator for concrete runs: every pixel
in cluster 0 (the contract only requires one label per row). -/
def kmZero (rows : List (ℚ × ℚ)) : List Nat := rows.map (fun _ => 0)

/-- A concrete 2×3 (RasterXSize = 2, RasterYSize = 3) index raster. -/
def raster23 : Raster := ⟨2, 3, [0, 1, 0, 0, 0, 1], "EPSG:32636", [1, 2, 3, 4, 5, 6]⟩

/-- A concrete 2×2 index raster. -/
def raster22 : Raster := ⟨2, 2, [0, 1, 0, 0, 0, 1], "EPSG:32636", [1, 2, 3, 4]⟩

/-- C2: the classification output grid does NOT equal the input grid —
the source passes `(RasterYSize, RasterXSize)` to the `(xsize, ysize)`
of gdal `Create`, so for the 2×3 input the created raster is the
transposed 3×2 and the `WriteArray` of the (3, 2)-shaped label grid
raises; only for square inputs (2×2) does the write succeed, with the
geotransform and projection of the input. -/
theorem claim_c2 :
    labelsOutputDims raster23 = (3, 2) ∧
    (labelsOutputDims raster23 ≠ (raster23.xSize, raster23.ySize)) ∧
    process_image kmZero raster23 raster23 =
      .error "WriteArray: array larger than raster" ∧
    process_image kmZero raster22 raster22 =
      .ok ⟨2, 2, raster22.geoTransform, raster22.projection, [0, 0, 0, 0]⟩ := by
  exact ⟨rfl, by decide, rfl, rfl⟩

end CloudGIS
